import Mathlib

/-!
Shallow embedding of the node-bangumi client library (src/unnamed/part_000,
`Bangumi` and its GET/POST request executors) together with the parts of
`./utils` that the file requires but that are not present in the repository
snapshot (those are modelled from the specification and marked as such).

JavaScript values that matter to the claims are modelled explicitly:
JSON payloads as an inductive type, `undefined`-vs-object-vs-function
arguments as `JsArg`, and the observable callback invocations of a
request/response cycle as a list of `(error?, result)` pairs.
-/

namespace NodeBangumi

/-- JSON values, as produced by a successful `JSON.parse`. -/
inductive Json where
  | null
  | bool (b : Bool)
  | num (n : Int)
  | str (s : String)
  | arr (elems : List Json)
  | obj (fields : List (String × Json))

/-- The empty object literal `{}` passed as the result on every error path. -/
def emptyJson : Json := Json.obj []

/-- Spec-side notion used by the claims: the payload "has an `error` key".
Only objects have keys; `null`, numbers, strings, booleans and arrays do not. -/
def hasErrorKey : Json → Bool
  | Json.obj fields => fields.any (fun f => f.1 = "error")
  | _ => false

/-- Embedding of the JavaScript expression `json.hasOwnProperty('error')`
(src/unnamed/part_000 lines 102 and 178).  On `null` the member access throws a
`TypeError` (modelled as `Except.error ()`); on primitives the value is boxed
and the test is `false`; on objects it tests for an own key `"error"`. -/
def hasOwnPropertyError : Json → Except Unit Bool
  | Json.null => Except.error ()
  | Json.obj fields => Except.ok (fields.any (fun f => f.1 = "error"))
  | _ => Except.ok false

/-- The error slot of a callback invocation: the parsed payload itself when it
carries an `error` key, the exception thrown by `JSON.parse`, the `TypeError`
thrown by `null.hasOwnProperty`, the value thrown by the caller's callback, or
a transport-stream error. -/
inductive ErrVal where
  | payload (j : Json)
  | parseError
  | typeErrorNullHasOwn
  | thrownByCallback
  | stream (msg : String)

/-- One observable callback invocation `(error?, result)`. -/
abbrev Invocation : Type := Option ErrVal × Json

/-- Embedding of the shared `res.on('end', ...)` handler
(src/unnamed/part_000 lines 99-107 for GET, 175-183 for POST):

```
try {
  var json = JSON.parse(data);
  if (json.hasOwnProperty('error')) callback(json, {});
  else callback(null, json);
} catch(err) {
  callback(err, {});
}
```

`parsed` is the result of `JSON.parse` on the accumulated body (`none` when
parsing throws), `cbThrows` says whether the caller's callback throws when it
is first invoked.  The result is the list of callback invocations performed,
in order.  A throw from the first callback call inside the `try` is caught by
the `catch`, which invokes the callback a second time with the thrown value;
a throw from a callback call already inside the `catch` propagates out and
produces no further invocation. -/
def endInvocations (parsed : Option Json) (cbThrows : Bool) : List Invocation :=
  match parsed with
  | none => [(some ErrVal.parseError, emptyJson)]
  | some j =>
    match hasOwnPropertyError j with
    | Except.error _ => [(some ErrVal.typeErrorNullHasOwn, emptyJson)]
    | Except.ok true =>
      if cbThrows then
        [(some (ErrVal.payload j), emptyJson), (some ErrVal.thrownByCallback, emptyJson)]
      else
        [(some (ErrVal.payload j), emptyJson)]
    | Except.ok false =>
      if cbThrows then
        [(none, j), (some ErrVal.thrownByCallback, emptyJson)]
      else
        [(none, j)]

/-- Embedding of the shared `res.on('error', ...)` handler
(src/unnamed/part_000 lines 109-111 and 185-187): `callback(err, {})`. -/
def errorEventInvocations (msg : String) : List Invocation :=
  [(some (ErrVal.stream msg), emptyJson)]

/-! ### URL and query-string encoding (`encodeURI`, `querystring.stringify`) -/

/-- One hexadecimal digit, upper case, for `n < 16`. -/
def hexDigit (n : Nat) : Char :=
  if n < 10 then Char.ofNat (48 + n) else Char.ofNat (55 + n)

/-- The UTF-8 bytes of a Unicode code point, as natural numbers below 256. -/
def utf8Bytes (n : Nat) : List Nat :=
  if n < 0x80 then [n]
  else if n < 0x800 then [0xC0 + n / 64, 0x80 + n % 64]
  else if n < 0x10000 then [0xE0 + n / 4096, 0x80 + (n / 64) % 64, 0x80 + n % 64]
  else [0xF0 + n / 262144, 0x80 + (n / 4096) % 64, 0x80 + (n / 64) % 64, 0x80 + n % 64]

/-- `%XX` percent-escapes for the UTF-8 encoding of one character. -/
def percentEncodeChar (ch : Char) : String :=
  String.mk ((utf8Bytes ch.toNat).foldr
    (fun b acc => '%' :: hexDigit (b / 16) :: hexDigit (b % 16) :: acc) [])

/-- Characters the JavaScript `encodeURI` leaves unescaped: ASCII alphanumerics
and `; , / ? : @ & = + $ - _ . ! ~ * ' ( ) #`. -/
def encodeURIUnescaped (ch : Char) : Bool :=
  ch.isAlphanum ||
    ch ∈ [';', ',', '/', '?', ':', '@', '&', '=', '+', '$', '-', '_', '.', '!', '~',
          '*', Char.ofNat 39, '(', ')', '#']

/-- The JavaScript `encodeURI` (used on the request path, lines 84 and 161). -/
def encodeURI (s : String) : String :=
  s.data.foldl (fun acc ch =>
    acc ++ (if encodeURIUnescaped ch then String.mk [ch] else percentEncodeChar ch)) ""

/-- Characters `querystring.escape` leaves unescaped (the `encodeURIComponent`
set): ASCII alphanumerics and `- _ . ! ~ * ' ( )`. -/
def qsUnescaped (ch : Char) : Bool :=
  ch.isAlphanum || ch ∈ ['-', '_', '.', '!', '~', '*', Char.ofNat 39, '(', ')']

/-- The escaping applied by `querystring.stringify` to each key and value. -/
def qsEscape (s : String) : String :=
  s.data.foldl (fun acc ch =>
    acc ++ (if qsUnescaped ch then String.mk [ch] else percentEncodeChar ch)) ""

/-- `querystring.stringify`: joins `key=value` pairs with `&`, escaping both
sides.  The empty mapping yields the empty string. -/
def qsStringify (params : List (String × String)) : String :=
  String.intercalate "&" (params.map (fun p => qsEscape p.1 ++ "=" ++ qsEscape p.2))

/-! ### The client configuration and the missing `utils` helpers -/

/-- Modelled from the spec: `utils.merge` (required from `./utils`, a file not
present in the repository snapshot).  The spec describes it as the
"configuration merger: combines user-supplied options with defaults", with the
second argument "merged over" the first, so entries of `b` take precedence and
entries of `a` not overridden are kept, in JavaScript object-insertion order
(keys of `a` first, then the new keys of `b`). -/
def jsMerge (a b : List (String × String)) : List (String × String) :=
  a.map (fun p => (p.1, (b.lookup p.1).getD p.2)) ++
    b.filter (fun p => a.lookup p.1 = none)

/-- The JavaScript property assignment `m[k] = v` on an object used as a map
(object keys are unique): replaces the value of an existing key in place,
otherwise appends the key at the end. -/
def setKey : List (String × String) → String → String → List (String × String)
  | [], k, v => [(k, v)]
  | p :: t, k, v => if p.1 = k then (k, v) :: t else p :: setKey t k v

/-- The client configuration `this.options` built by the `Bangumi` constructor
(lines 24-40): default headers and `rest_base`, optional `protocol`, `app_id`
and `access_token` (a field is absent exactly when `hasOwnProperty` is false,
hence the `Option`s). -/
structure Options where
  headers : List (String × String)
  callback_url : Option String
  rest_base : String
  cookie_secret : Option String
  protocol : Option String
  app_id : Option String
  access_token : Option String

/-- The default headers of the constructor (lines 27-32). -/
def defaultHeaders : List (String × String) :=
  [("Accept", "*/*"),
   ("Content-Type", "application/x-www-form-urlencoded"),
   ("Connection", "close"),
   ("User-Agent", "node-bangumi/1.0.0")]

/-- The defaults of the constructor (lines 26-38), before the user-supplied
options are merged over them. -/
def defaultOptions : Options :=
  { headers := defaultHeaders
    callback_url := none
    rest_base := "api.bgm.tv"
    cookie_secret := none
    protocol := none
    app_id := none
    access_token := none }

/-- A JavaScript argument as the executors see it: a parameters object, a
function, or `undefined` (omitted). -/
inductive JsArg where
  | obj (fields : List (String × String))
  | func
  | undef
  deriving DecidableEq

/-- The two synchronous failures of the executors: `'FAIL: INVALID CALLBACK.'`
and `'FAIL: INVALID URL.'` (lines 68-74 and 145-151). -/
inductive JsFailure where
  | invalidCallback
  | invalidUrl
  deriving DecidableEq

/-- `url.charAt(0) === c` (on the empty string `charAt(0)` is `""`, so the
test is false). -/
def firstCharIs (s : String) (c : Char) : Bool :=
  match s.data with
  | [] => false
  | ch :: _ => ch = c

/-- The request descriptor handed to `http(s).request` plus the body written
with `req.write` (lines 82-87, 159-164, 190). -/
structure Request where
  protocol : String
  host : String
  path : String
  method : String
  headers : List (String × String)
  body : Option String

/-- What an executor call produces synchronously: the state of `this.options`
when the call returns (the GET path can mutate the shared headers mapping),
the request descriptor issued, and the callback invocations performed within
the calling frame — an empty list in the source, since the callback is only
ever called from the `res.on` event handlers. -/
structure ExecResult where
  client : Options
  req : Request
  syncInvocations : List Invocation

/-- `this.options.protocol || 'https'` (lines 79 and 153): the default applies
both when the field is absent and when it is falsy (empty string). -/
def protocolName (c : Options) : String :=
  match c.protocol with
  | some p => if p = "" then "https" else p
  | none => "https"

/-- A parameters argument as a key/value list: an object gives its fields,
`undefined` behaves as the empty mapping (both `utils.merge` and
`querystring.stringify` treat `undefined` that way). -/
def toParamList : JsArg → List (String × String)
  | JsArg.obj fields => fields
  | _ => []

/-- Line 76 of `_get`: `{source: app_id}` merged under the params when an
`app_id` is configured (the caller's params take precedence). -/
def getParams (c : Options) (params : List (String × String)) : List (String × String) :=
  match c.app_id with
  | some a => jsMerge [("source", a)] params
  | none => params

/-- The body of `Bangumi.prototype._get` after validation (lines 76-114).
Line 84 builds the encoded path with `?` exactly when the query string is
non-empty (string truthiness); line 86 puts the client's own headers object
into the request, and line 89 writes the `Authorization` key into that shared
object when an access token is configured — mutating `this.options.headers`,
which is why the returned `client` differs from `c` in that case.  The
callback is only referenced inside the `res.on` handlers, so no invocation
happens synchronously (`syncInvocations := []`). -/
def _getCore (c : Options) (url : String) (params : List (String × String)) : ExecResult :=
  let qs := qsStringify (getParams c params)
  let path := encodeURI (url ++ (if qs ≠ "" then "?" else "") ++ qs)
  let hc := match c.access_token with
    | some t =>
      let h := setKey c.headers "Authorization" ("Bearer " ++ t)
      (h, { c with headers := h })
    | none => (c.headers, c)
  { client := hc.2
    req :=
      { protocol := protocolName c
        host := c.rest_base
        path := path
        method := "GET"
        headers := hc.1
        body := none }
    syncInvocations := [] }

/-- Embedding of `Bangumi.prototype._get` (lines 61-117) up to its synchronous
return.  Lines 62-65 shift a function passed in parameter position into the
callback slot (replacing the params with `{}`); lines 68-74 are the
synchronous validation throws, raised before any request is built. -/
def Bangumi._get (c : Options) (url : String) (params callback : JsArg) :
    Except JsFailure ExecResult :=
  let pc := if params = JsArg.func then (JsArg.obj [], JsArg.func) else (params, callback)
  if pc.2 ≠ JsArg.func then Except.error JsFailure.invalidCallback
  else if firstCharIs url '/' = false then Except.error JsFailure.invalidUrl
  else Except.ok (_getCore c url (toParamList pc.1))

/-- The body of `Bangumi.prototype._post` after validation (lines 153-193).
The parameters are serialized into the body (line 155); a `Content-Length`
computed from the encoded body is merged *under* the client's headers into a
fresh object (line 157), so the `Authorization` write on line 166 lands in
that copy and `this.options` is left untouched (`client := c`); the `app_id`
is appended to the encoded path's query string (line 167), not put into the
body. -/
def _postCore (c : Options) (url : String) (params : List (String × String)) : ExecResult :=
  let post_data := qsStringify params
  let headers0 := jsMerge [("Content-Length", toString post_data.length)] c.headers
  let headers1 := match c.access_token with
    | some t => setKey headers0 "Authorization" ("Bearer " ++ t)
    | none => headers0
  let path := encodeURI url ++ (match c.app_id with
    | some a => "?" ++ qsStringify [("source", a)]
    | none => "")
  { client := c
    req :=
      { protocol := protocolName c
        host := c.rest_base
        path := path
        method := "POST"
        headers := headers1
        body := some post_data }
    syncInvocations := [] }

/-- Embedding of `Bangumi.prototype._post` (lines 139-194) up to its
synchronous return: the same argument shift and validation as `_get`,
then `_postCore`. -/
def Bangumi._post (c : Options) (url : String) (params callback : JsArg) :
    Except JsFailure ExecResult :=
  let pc := if params = JsArg.func then (JsArg.obj [], JsArg.func) else (params, callback)
  if pc.2 ≠ JsArg.func then Except.error JsFailure.invalidCallback
  else if firstCharIs url '/' = false then Except.error JsFailure.invalidUrl
  else Except.ok (_postCore c url (toParamList pc.1))

/-- The value a call returns, as far as the claims distinguish it: `undefined`,
a deferred (promise) value, or the client instance itself. -/
inductive JsReturn where
  | undef
  | promiseVal
  | clientVal
  deriving DecidableEq

/-- Modelled from the spec: the return value of `utils.promiseOrCallback`
(required from `./utils`, not present in the repository snapshot).  Per the
spec's dual-mode result adapter contract, with no callback it "return[s] a
deferred value"; with a callback it invokes the callback directly, and the
only value available to return is the result of the unit of work — which at
both call sites (lines 128-130 and 198-200) is `undefined`, because those
closures call `self._get`/`self._post` without returning their result.  In
particular the adapter never sees the client instance and cannot return it. -/
def promiseOrCallbackReturn (callbackGiven : Bool) : JsReturn :=
  if callbackGiven then JsReturn.undef else JsReturn.promiseVal

/-- Embedding of the public `Bangumi.prototype.get` (lines 126-131): runs
`_get` with the adapter's completion function (always a function) in callback
position, and returns the adapter's result.  A synchronous throw from `_get`
is modelled as `Except.error` (in the promise mode the real adapter turns it
into a rejection; no claim depends on that difference). -/
def Bangumi.get (c : Options) (url : String) (params callback : JsArg) :
    Except JsFailure (JsReturn × ExecResult) :=
  (Bangumi._get c url params JsArg.func).map
    (fun r => (promiseOrCallbackReturn (callback = JsArg.func), r))

/-- Embedding of the public `Bangumi.prototype.post` (lines 196-201). -/
def Bangumi.post (c : Options) (url : String) (params callback : JsArg) :
    Except JsFailure (JsReturn × ExecResult) :=
  (Bangumi._post c url params JsArg.func).map
    (fun r => (promiseOrCallbackReturn (callback = JsArg.func), r))

/-! ### Endpoint methods (lines 214-373)

Each is a path formatter delegating to the public `get`/`post`.  Methods whose
JavaScript body is `return this.get(url, callback)` pass the caller's callback
in the *parameters* position of the three-argument `get`, leaving the callback
position `undefined`; `calendar` additionally discards `get`'s result and
returns `this`. -/

/-- `Bangumi.prototype.calendar` (lines 214-218): `this.get(url, callback);
return this;` — the executor's result is dropped and the client instance is
returned. -/
def Bangumi.calendar (c : Options) (callback : JsArg) :
    Except JsFailure (JsReturn × ExecResult) :=
  (Bangumi.get c "/calendar" callback JsArg.undef).map (fun r => (JsReturn.clientVal, r.2))

/-- `Bangumi.prototype.user` (lines 226-229): `return this.get('/user/' + username, callback)`. -/
def Bangumi.user (c : Options) (username : String) (callback : JsArg) :
    Except JsFailure (JsReturn × ExecResult) :=
  Bangumi.get c ("/user/" ++ username) callback JsArg.undef

/-- `Bangumi.prototype.subject` (lines 239-242). -/
def Bangumi.subject (c : Options) (subject_id : Nat) (params callback : JsArg) :
    Except JsFailure (JsReturn × ExecResult) :=
  Bangumi.get c ("/subject/" ++ toString subject_id) params callback

/-- `Bangumi.prototype.ep` (lines 251-254). -/
def Bangumi.ep (c : Options) (subject_id : Nat) (callback : JsArg) :
    Except JsFailure (JsReturn × ExecResult) :=
  Bangumi.get c ("/subject/" ++ toString subject_id ++ "/ep") callback JsArg.undef

/-- `Bangumi.prototype.collectionByUser` (lines 264-267). -/
def Bangumi.collectionByUser (c : Options) (username : String) (params callback : JsArg) :
    Except JsFailure (JsReturn × ExecResult) :=
  Bangumi.get c ("/user/" ++ username ++ "/collection") params callback

/-- `Bangumi.prototype.search` (lines 281-284). -/
def Bangumi.search (c : Options) (keywords : String) (params callback : JsArg) :
    Except JsFailure (JsReturn × ExecResult) :=
  Bangumi.get c ("/search/subject/" ++ keywords) params callback

/-- `Bangumi.prototype.collectionBySubject` (lines 296-299). -/
def Bangumi.collectionBySubject (c : Options) (subject_id : Nat) (params callback : JsArg) :
    Except JsFailure (JsReturn × ExecResult) :=
  Bangumi.get c ("/collection/" ++ toString subject_id) params callback

/-- `Bangumi.prototype.progress` (lines 310-313). -/
def Bangumi.progress (c : Options) (username : String) (params callback : JsArg) :
    Except JsFailure (JsReturn × ExecResult) :=
  Bangumi.get c ("/user/" ++ username ++ "/progress") params callback

/-- `Bangumi.prototype.auth` (lines 324-328). -/
def Bangumi.auth (c : Options) (params callback : JsArg) :
    Except JsFailure (JsReturn × ExecResult) :=
  Bangumi.post c "/auth" params callback

/-- `Bangumi.prototype.createCollection` (lines 342-345). -/
def Bangumi.createCollection (c : Options) (subject_id : Nat) (params callback : JsArg) :
    Except JsFailure (JsReturn × ExecResult) :=
  Bangumi.post c ("/collection/" ++ toString subject_id ++ "/create") params callback

/-- `Bangumi.prototype.updateEp` (lines 356-359). -/
def Bangumi.updateEp (c : Options) (ep_id : Nat) (status : String) (params callback : JsArg) :
    Except JsFailure (JsReturn × ExecResult) :=
  Bangumi.post c ("/ep/" ++ toString ep_id ++ "/status/" ++ status) params callback

/-- `Bangumi.prototype.updateEps` (lines 370-373). -/
def Bangumi.updateEps (c : Options) (subject_id : Nat) (params callback : JsArg) :
    Except JsFailure (JsReturn × ExecResult) :=
  Bangumi.post c ("/subject/" ++ toString subject_id ++ "/update/watched_eps") params callback

/-! ### Response events and the dual-mode delivery (for the promise path) -/

/-- A terminal event of the response stream: `end` with the result of
`JSON.parse` on the accumulated body (`none` when parsing throws), or a
transport `error`. -/
inductive RespEvent where
  | ended (parsed : Option Json)
  | streamError (msg : String)

/-- The single `(error?, result)` pair handed to the completion function for a
terminal response event, assuming the completion function itself does not
throw (each handler performs exactly one invocation then). -/
def deliver : RespEvent → Invocation
  | RespEvent.ended parsed => (endInvocations parsed false).headD (none, emptyJson)
  | RespEvent.streamError m => (errorEventInvocations m).headD (none, emptyJson)

/-- The fate of the deferred value returned when no callback is supplied. -/
inductive Settled where
  | resolved (v : Json)
  | rejected (e : ErrVal)

/-- How the adapter surfaces one completion to the caller: a direct callback
invocation, or the settlement of the returned deferred value. -/
inductive AdapterOutcome where
  | calledBack (inv : Invocation)
  | deferredResult (s : Settled)

/-- Modelled from the spec: the delivery behaviour of `utils.promiseOrCallback`
(required from `./utils`, not present in the repository snapshot).  Per the
spec: "If a callback was supplied, invoke it with (error, value) directly.
If not, return a deferred value: reject it when the completion function is
called with a non-null error, resolve it with the value otherwise." -/
def promiseOrCallback (callbackGiven : Bool) (inv : Invocation) : AdapterOutcome :=
  if callbackGiven then AdapterOutcome.calledBack inv
  else
    AdapterOutcome.deferredResult
      (match inv.1 with
       | some e => Settled.rejected e
       | none => Settled.resolved inv.2)

/-! ### Concrete clients used to instantiate the theorems -/

/-- A client constructed with `app_id: 'abc'` and `access_token: 'tok'` over
the constructor defaults. -/
def sampleClient : Options :=
  { defaultOptions with app_id := some "abc", access_token := some "tok" }

/-- A client constructed with only `access_token: 'tok'` over the defaults. -/
def tokenClient : Options :=
  { defaultOptions with access_token := some "tok" }

/-! ### Helper lemmas about association-list lookup -/

theorem lookup_append_of_none (m l : List (String × String)) (k : String)
    (h : m.lookup k = none) : (m ++ l).lookup k = l.lookup k := by
  induction m with
  | nil => rfl
  | cons p t ih =>
    simp only [List.lookup, List.cons_append] at h ⊢
    cases hk : (k == p.1) with
    | true => simp [hk] at h
    | false =>
      simp only [hk] at h ⊢
      exact ih h

theorem lookup_setKey_self (m : List (String × String)) (k v : String) :
    (setKey m k v).lookup k = some v := by
  induction m with
  | nil => simp [setKey, List.lookup]
  | cons p t ih =>
    by_cases hp : p.1 = k
    · simp [setKey, hp, List.lookup]
    · have hk : (k == p.1) = false := by
        simp only [beq_eq_false_iff_ne, ne_eq]
        exact fun hh => hp hh.symm
      simp only [setKey, if_neg hp, List.lookup, hk]
      exact ih

theorem lookup_setKey_ne (m : List (String × String)) (k v k' : String)
    (hne : k' ≠ k) : (setKey m k v).lookup k' = m.lookup k' := by
  have hk : (k' == k) = false := by
    simp only [beq_eq_false_iff_ne, ne_eq]
    exact hne
  induction m with
  | nil => simp [setKey, List.lookup, hk]
  | cons p t ih =>
    by_cases hp : p.1 = k
    · have hq : (k' == p.1) = false := by rw [hp]; exact hk
      simp only [setKey, if_pos hp, List.lookup, hk, hq]
    · simp only [setKey, if_neg hp, List.lookup]
      cases hq : (k' == p.1) with
      | true => rfl
      | false => exact ih

theorem firstCharIs_append (s t : String) (c : Char)
    (h : firstCharIs s c = true) : firstCharIs (s ++ t) c = true := by
  unfold firstCharIs at h ⊢
  rw [String.data_append]
  cases hd : s.data with
  | nil => rw [hd] at h; exact absurd h (by simp)
  | cons ch rest => rw [hd] at h; simpa using h

/-! ### Reduction lemmas for the executors -/

theorem _get_valid (c : Options) (url : String) (params : JsArg)
    (hurl : firstCharIs url '/' = true) :
    Bangumi._get c url params JsArg.func =
      Except.ok (_getCore c url (toParamList params)) := by
  cases params <;> simp [Bangumi._get, hurl, toParamList]

theorem _post_valid (c : Options) (url : String) (params : JsArg)
    (hurl : firstCharIs url '/' = true) :
    Bangumi._post c url params JsArg.func =
      Except.ok (_postCore c url (toParamList params)) := by
  cases params <;> simp [Bangumi._post, hurl, toParamList]

theorem get_return (c : Options) (url : String) (params cb : JsArg)
    (hurl : firstCharIs url '/' = true) :
    (Bangumi.get c url params cb).map Prod.fst =
      Except.ok (promiseOrCallbackReturn (cb = JsArg.func)) := by
  unfold Bangumi.get
  rw [_get_valid c url params hurl]
  rfl

theorem post_return (c : Options) (url : String) (params cb : JsArg)
    (hurl : firstCharIs url '/' = true) :
    (Bangumi.post c url params cb).map Prod.fst =
      Except.ok (promiseOrCallbackReturn (cb = JsArg.func)) := by
  unfold Bangumi.post
  rw [_post_valid c url params hurl]
  rfl

theorem _getCore_auth (c : Options) (url : String) (params : List (String × String))
    (hauth : c.headers.lookup "Authorization" = none) :
    (_getCore c url params).req.headers.lookup "Authorization" =
      c.access_token.map (fun t => "Bearer " ++ t) := by
  unfold _getCore
  cases c.access_token with
  | none => simpa using hauth
  | some t => simp [lookup_setKey_self]

theorem _postCore_contentLength (c : Options) (url : String)
    (params : List (String × String))
    (hcl : c.headers.lookup "Content-Length" = none) :
    (_postCore c url params).req.headers.lookup "Content-Length" =
      some (toString (qsStringify params).length) := by
  unfold _postCore
  cases c.access_token with
  | none => simp [jsMerge, List.lookup, hcl]
  | some t =>
    rw [lookup_setKey_ne _ _ _ _ (by decide)]
    simp [jsMerge, List.lookup, hcl]

/-! ### The claims -/

/-- C1, counterexample: the claim quantifies over every response body that
parses successfully as JSON, and the body `"null"` does parse, to the JSON
value `null`, which has no `"error"` key — so the claim demands the
invocation `(null, payload)`.  The code instead reaches
`null.hasOwnProperty('error')`, which throws a `TypeError` that the `catch`
turns into `callback(err, {})`. -/
theorem claim_C1_counterexample :
    hasErrorKey Json.null = false ∧
    endInvocations (some Json.null) false = [(some ErrVal.typeErrorNullHasOwn, emptyJson)] ∧
    endInvocations (some Json.null) false ≠ [((none : Option ErrVal), Json.null)] := by
  refine ⟨rfl, rfl, ?_⟩
  intro h
  have h1 := (List.cons.inj h).1
  have h2 := congrArg Prod.fst h1
  exact Option.noConfusion h2

/-- C1, amended: for every response body parsing to a *non-null* payload, the
outcome classification is as claimed — a payload with an `"error"` key yields
the invocation `(payload, {})` with an empty second argument regardless of the
payload's contents, and a payload without one yields `(null, payload)` with
the payload delivered exactly as parsed.  (A null payload instead yields
`(TypeError, {})` through the catch path, per the counterexample.) -/
theorem claim_C1_amended (j : Json) (hnull : j ≠ Json.null) :
    (hasErrorKey j = true →
        endInvocations (some j) false = [(some (ErrVal.payload j), emptyJson)]) ∧
    (hasErrorKey j = false → endInvocations (some j) false = [(none, j)]) := by
  cases j with
  | null => exact absurd rfl hnull
  | obj fields =>
    cases hb : fields.any (fun f => f.1 = "error") with
    | true =>
      refine ⟨fun _ => ?_, fun hfalse => ?_⟩
      · simp [endInvocations, hasOwnPropertyError, hb]
      · simp [hasErrorKey, hb] at hfalse
    | false =>
      refine ⟨fun htrue => ?_, fun _ => ?_⟩
      · simp [hasErrorKey, hb] at htrue
      · simp [endInvocations, hasOwnPropertyError, hb]
  | bool b => exact ⟨fun h => by simp [hasErrorKey] at h, fun _ => rfl⟩
  | num n => exact ⟨fun h => by simp [hasErrorKey] at h, fun _ => rfl⟩
  | str s => exact ⟨fun h => by simp [hasErrorKey] at h, fun _ => rfl⟩
  | arr xs => exact ⟨fun h => by simp [hasErrorKey] at h, fun _ => rfl⟩

/-- Witness for C1 (amended) at the payload `{"error": "msg"}`. -/
theorem claim_C1_amended_witness :
    endInvocations (some (Json.obj [("error", Json.str "msg")])) false =
      [(some (ErrVal.payload (Json.obj [("error", Json.str "msg")])), emptyJson)] :=
  (claim_C1_amended (Json.obj [("error", Json.str "msg")])
    (fun h => Json.noConfusion h)).1 rfl

/-- C2, code bug: the claim (and the spec's "immutable after construction",
"must not be mutated mid-flight") says no GET/POST invocation modifies the
client's options, even with an access token configured.  But line 86 of `_get`
aliases `this.options.headers` into the request options and line 89 then
writes `Authorization` through that alias, so a client constructed with
`access_token: 'tok'` has `('Authorization', 'Bearer tok')` appended to its
own headers mapping by a single `_get('/calendar', {}, cb)` call — the POST
path, by contrast, copies the headers first (line 157).  This theorem
evaluates the code at that failing input: the client state returned by the
call has a headers list that differs from the one it was constructed with. -/
theorem claim_C2_codebug :
    (Bangumi._get tokenClient "/calendar" (JsArg.obj []) JsArg.func).map
        (fun r => r.client.headers) =
      Except.ok (defaultHeaders ++ [("Authorization", "Bearer tok")]) ∧
    defaultHeaders ++ [("Authorization", "Bearer tok")] ≠ defaultHeaders := by
  refine ⟨rfl, ?_⟩
  intro h
  have hl := congrArg List.length h
  simp [defaultHeaders] at hl

/-- C3, counterexample: the claim says the public GET executor with a callback
supplied returns the client instance.  It returns the adapter's result, which
is `undefined`: the closures at lines 128-130/198-200 discard the `this`
returned by `_get`/`_post`, so the adapter has nothing but `undefined` to
return. -/
theorem claim_C3_counterexample :
    (Bangumi.get defaultOptions "/calendar" (JsArg.obj []) JsArg.func).map Prod.fst =
      Except.ok JsReturn.undef ∧
    JsReturn.undef ≠ JsReturn.clientVal :=
  ⟨rfl, by decide⟩

/-- C3, amended: the *underlying* executors `_get`/`_post` return the client
instance (the `client` field of their result is `this`) and deliver no result
synchronously within the calling frame (`syncInvocations` is empty; results
only flow from later response events); the *public* executors return the
dual-mode adapter's result — `undefined` when a callback is supplied and a
deferred value when it is omitted — never the client instance. -/
theorem claim_C3_amended (c : Options) (url : String)
    (params : List (String × String)) (hurl : firstCharIs url '/' = true) :
    (Bangumi._get c url (JsArg.obj params) JsArg.func).map
        (fun r => r.syncInvocations) = Except.ok [] ∧
    (Bangumi._post c url (JsArg.obj params) JsArg.func).map
        (fun r => r.syncInvocations) = Except.ok [] ∧
    (Bangumi.get c url (JsArg.obj params) JsArg.func).map Prod.fst =
      Except.ok JsReturn.undef ∧
    (Bangumi.get c url (JsArg.obj params) JsArg.undef).map Prod.fst =
      Except.ok JsReturn.promiseVal ∧
    (Bangumi.post c url (JsArg.obj params) JsArg.func).map Prod.fst =
      Except.ok JsReturn.undef ∧
    (Bangumi.post c url (JsArg.obj params) JsArg.undef).map Prod.fst =
      Except.ok JsReturn.promiseVal ∧
    JsReturn.undef ≠ JsReturn.clientVal ∧
    JsReturn.promiseVal ≠ JsReturn.clientVal := by
  rw [_get_valid c url (JsArg.obj params) hurl, _post_valid c url (JsArg.obj params) hurl]
  refine ⟨rfl, rfl, ?_, ?_, ?_, ?_, by decide, by decide⟩
  · rw [get_return c url (JsArg.obj params) JsArg.func hurl]; rfl
  · rw [get_return c url (JsArg.obj params) JsArg.undef hurl]; rfl
  · rw [post_return c url (JsArg.obj params) JsArg.func hurl]; rfl
  · rw [post_return c url (JsArg.obj params) JsArg.undef hurl]; rfl

/-- Witness for C3 (amended) at `get('/calendar', {}, cb)` on a default
client: with no callback the public executor returns the deferred value. -/
theorem claim_C3_amended_witness :
    (Bangumi.get defaultOptions "/calendar" (JsArg.obj []) JsArg.undef).map Prod.fst =
      Except.ok JsReturn.promiseVal :=
  (claim_C3_amended defaultOptions "/calendar" [] rfl).2.2.2.1

/-- C4, counterexample: the claim says the callback is invoked at most once
per request/response cycle for *any* behaviour of the callback, including one
that throws when first invoked.  But if the body parses (say to `{}`) and the
first `callback(null, json)` call throws, the surrounding `catch` catches the
thrown value and calls `callback(err, {})` a second time: two invocations. -/
theorem claim_C4_counterexample :
    endInvocations (some (Json.obj [])) true =
      [(none, Json.obj []), (some ErrVal.thrownByCallback, emptyJson)] ∧
    ¬ (endInvocations (some (Json.obj [])) true).length ≤ 1 :=
  ⟨rfl, by decide⟩

/-- C4, amended: per terminal response event the callback is invoked exactly
once provided it does not throw; a callback that throws on its first
invocation (after a successful parse and key test) is invoked a second time
from the `catch` block with the thrown value — so the bound is two, not one. -/
theorem claim_C4_amended (parsed : Option Json) (cbThrows : Bool) (msg : String) :
    (endInvocations parsed false).length = 1 ∧
    (endInvocations parsed cbThrows).length ≤ 2 ∧
    (errorEventInvocations msg).length = 1 := by
  refine ⟨?_, ?_, rfl⟩
  · cases parsed with
    | none => rfl
    | some j =>
      cases j with
      | obj fields =>
        cases hb : fields.any (fun f => f.1 = "error") <;>
          simp [endInvocations, hasOwnPropertyError, hb]
      | null => rfl
      | bool b => rfl
      | num n => rfl
      | str s => rfl
      | arr xs => rfl
  · cases parsed with
    | none => cases cbThrows <;> simp [endInvocations]
    | some j =>
      cases j with
      | obj fields =>
        cases hb : fields.any (fun f => f.1 = "error") <;> cases cbThrows <;>
          simp [endInvocations, hasOwnPropertyError, hb]
      | null => cases cbThrows <;> simp [endInvocations, hasOwnPropertyError]
      | bool b => cases cbThrows <;> simp [endInvocations, hasOwnPropertyError]
      | num n => cases cbThrows <;> simp [endInvocations, hasOwnPropertyError]
      | str s => cases cbThrows <;> simp [endInvocations, hasOwnPropertyError]
      | arr xs => cases cbThrows <;> simp [endInvocations, hasOwnPropertyError]

/-- C5: for any path whose first character is not `'/'` the underlying GET and
POST executors fail synchronously with the invalid-URL failure — the result is
an `Except.error`, so no request descriptor is ever built — and a non-function
callback (with an object in parameter position, so the argument shift does not
rescue it) fails synchronously with the invalid-callback failure, on any
path. -/
theorem claim_C5 (c : Options) (url url2 : String) (params : List (String × String))
    (cb : JsArg) (hurl : firstCharIs url '/' = false) (hcb : cb ≠ JsArg.func) :
    Bangumi._get c url (JsArg.obj params) JsArg.func =
      Except.error JsFailure.invalidUrl ∧
    Bangumi._post c url (JsArg.obj params) JsArg.func =
      Except.error JsFailure.invalidUrl ∧
    Bangumi._get c url2 (JsArg.obj params) cb =
      Except.error JsFailure.invalidCallback ∧
    Bangumi._post c url2 (JsArg.obj params) cb =
      Except.error JsFailure.invalidCallback := by
  refine ⟨?_, ?_, ?_, ?_⟩ <;> simp [Bangumi._get, Bangumi._post, hurl, hcb]

/-- Witness for C5 at the path `'calendar'` (no leading slash) and at an
omitted (`undefined`) callback on the valid path `'/calendar'`. -/
theorem claim_C5_witness :
    Bangumi._get defaultOptions "calendar" (JsArg.obj []) JsArg.func =
      Except.error JsFailure.invalidUrl ∧
    Bangumi._post defaultOptions "calendar" (JsArg.obj []) JsArg.func =
      Except.error JsFailure.invalidUrl ∧
    Bangumi._get defaultOptions "/calendar" (JsArg.obj []) JsArg.undef =
      Except.error JsFailure.invalidCallback ∧
    Bangumi._post defaultOptions "/calendar" (JsArg.obj []) JsArg.undef =
      Except.error JsFailure.invalidCallback :=
  claim_C5 defaultOptions "calendar" "/calendar" [] JsArg.undef (by decide) (by decide)

/-- C6: when `JSON.parse` throws, the (single) callback invocation is
`(parseError, {})`, whatever the callback then does; and a transport error on
the response stream produces the (single) invocation `(transportError, {})`.
In both cases the second argument is the empty object and the error value is
handed to the callback rather than swallowed — the invocation lists are
exactly one element long. -/
theorem claim_C6 (cbThrows : Bool) (msg : String) :
    endInvocations none cbThrows = [(some ErrVal.parseError, emptyJson)] ∧
    errorEventInvocations msg = [(some (ErrVal.stream msg), emptyJson)] :=
  ⟨rfl, rfl⟩

/-- C7: for every terminal response event, the callback-mode adapter hands the
callback exactly the `(error?, value)` pair `deliver` produces, and the
promise-mode adapter returns a deferred value that is rejected with that exact
error when the error slot is non-null and resolved with that exact value when
it is null. -/
theorem claim_C7 (ev : RespEvent) :
    promiseOrCallback true (deliver ev) = AdapterOutcome.calledBack (deliver ev) ∧
    (∀ e v, deliver ev = (some e, v) →
        promiseOrCallback false (deliver ev) =
          AdapterOutcome.deferredResult (Settled.rejected e)) ∧
    (∀ v, deliver ev = (none, v) →
        promiseOrCallback false (deliver ev) =
          AdapterOutcome.deferredResult (Settled.resolved v)) := by
  refine ⟨rfl, ?_, ?_⟩
  · intro e v h
    simp [promiseOrCallback, h]
  · intro v h
    simp [promiseOrCallback, h]

/-- Witness for C7 at a transport error event: the deferred value is rejected
with the stream error. -/
theorem claim_C7_witness :
    promiseOrCallback false (deliver (RespEvent.streamError "boom")) =
      AdapterOutcome.deferredResult (Settled.rejected (ErrVal.stream "boom")) :=
  (claim_C7 (RespEvent.streamError "boom")).2.1 (ErrVal.stream "boom") emptyJson rfl

/-- C8: on a GET with an `app_id` configured, the parameters actually sent are
`{source: app_id}` merged under the caller's parameters; the request path is
the URL-encoding of the path followed by the query string, with `?` present
exactly when the query string is non-empty; the method is GET; and (when the
configured headers carry no `Authorization` of their own) the sent headers
contain a bearer `Authorization` exactly when an access token is configured,
with value `Bearer <token>`. -/
theorem claim_C8 (c : Options) (a : String) (url : String)
    (params : List (String × String))
    (happ : c.app_id = some a) (hurl : firstCharIs url '/' = true)
    (hauth : c.headers.lookup "Authorization" = none) :
    getParams c params = jsMerge [("source", a)] params ∧
    (Bangumi._get c url (JsArg.obj params) JsArg.func).map (fun r => r.req.path) =
      Except.ok (encodeURI (url ++
        (if qsStringify (getParams c params) ≠ "" then "?" else "") ++
        qsStringify (getParams c params))) ∧
    (Bangumi._get c url (JsArg.obj params) JsArg.func).map (fun r => r.req.method) =
      Except.ok "GET" ∧
    (Bangumi._get c url (JsArg.obj params) JsArg.func).map
        (fun r => r.req.headers.lookup "Authorization") =
      Except.ok (c.access_token.map (fun t => "Bearer " ++ t)) := by
  rw [_get_valid c url (JsArg.obj params) hurl]
  refine ⟨by simp [getParams, happ], rfl, rfl, ?_⟩
  exact congrArg Except.ok (_getCore_auth c url params hauth)

/-- Witness for C8: `get('/calendar', cb)` on a client with `app_id: 'abc'`
and `access_token: 'tok'` issues a GET to `/calendar?source=abc` with header
`Authorization: Bearer tok`. -/
theorem claim_C8_witness :
    (Bangumi._get sampleClient "/calendar" (JsArg.obj []) JsArg.func).map
        (fun r => r.req.path) = Except.ok "/calendar?source=abc" ∧
    (Bangumi._get sampleClient "/calendar" (JsArg.obj []) JsArg.func).map
        (fun r => r.req.headers.lookup "Authorization") =
      Except.ok (some "Bearer tok") := by
  have h := claim_C8 sampleClient "abc" "/calendar" [] rfl rfl rfl
  exact ⟨h.2.1.trans (by rfl), h.2.2.2.trans (by rfl)⟩

/-- C9: on a POST, the parameter mapping is serialized into the request body
as the url-encoded string `qsStringify params`; a `Content-Length` equal to
the encoded body's length is sent (when the configured headers carry no
`Content-Length` of their own); and the path is the URL-encoded url with
`?source=<app_id>` appended exactly when an `app_id` is configured — the path
does not depend on the parameters, and the body does not depend on the
`app_id`. -/
theorem claim_C9 (c : Options) (url : String) (params : List (String × String))
    (hurl : firstCharIs url '/' = true)
    (hcl : c.headers.lookup "Content-Length" = none) :
    (Bangumi._post c url (JsArg.obj params) JsArg.func).map (fun r => r.req.body) =
      Except.ok (some (qsStringify params)) ∧
    (Bangumi._post c url (JsArg.obj params) JsArg.func).map
        (fun r => r.req.headers.lookup "Content-Length") =
      Except.ok (some (toString (qsStringify params).length)) ∧
    (Bangumi._post c url (JsArg.obj params) JsArg.func).map (fun r => r.req.path) =
      Except.ok (encodeURI url ++ (match c.app_id with
        | some a => "?" ++ qsStringify [("source", a)]
        | none => "")) ∧
    (Bangumi._post c url (JsArg.obj params) JsArg.func).map (fun r => r.req.method) =
      Except.ok "POST" := by
  rw [_post_valid c url (JsArg.obj params) hurl]
  refine ⟨rfl, ?_, rfl, rfl⟩
  exact congrArg Except.ok (_postCore_contentLength c url params hcl)

/-- Witness for C9: `post('/collection/123/create', {status:'wish'}, cb)` on
the sample client serializes `status=wish` into the body, sends
`Content-Length: 11`, and posts to `/collection/123/create?source=abc`. -/
theorem claim_C9_witness :
    (Bangumi._post sampleClient "/collection/123/create"
        (JsArg.obj [("status", "wish")]) JsArg.func).map (fun r => r.req.body) =
      Except.ok (some "status=wish") ∧
    (Bangumi._post sampleClient "/collection/123/create"
        (JsArg.obj [("status", "wish")]) JsArg.func).map
        (fun r => r.req.headers.lookup "Content-Length") = Except.ok (some "11") ∧
    (Bangumi._post sampleClient "/collection/123/create"
        (JsArg.obj [("status", "wish")]) JsArg.func).map (fun r => r.req.path) =
      Except.ok "/collection/123/create?source=abc" := by
  have h := claim_C9 sampleClient "/collection/123/create" [("status", "wish")] rfl rfl
  exact ⟨h.1.trans (by rfl), h.2.1.trans (by rfl), h.2.2.1.trans (by rfl)⟩

/-- C10: `calendar` returns the client instance for every callback argument,
discarding the executor's result — so with the callback omitted the caller
gets the client instance, which is not the deferred value — while `user`,
`subject`, `ep`, `collectionByUser`, `search`, `collectionBySubject`,
`progress`, `auth`, `createCollection`, `updateEp` and `updateEps` all return
the executor's result, a deferred value when the callback is omitted. -/
theorem claim_C10 (c : Options) (cb : JsArg) (username keywords status : String)
    (sid epid : Nat) (params : List (String × String)) :
    (Bangumi.calendar c cb).map Prod.fst = Except.ok JsReturn.clientVal ∧
    JsReturn.clientVal ≠ JsReturn.promiseVal ∧
    (Bangumi.user c username JsArg.undef).map Prod.fst =
      Except.ok JsReturn.promiseVal ∧
    (Bangumi.subject c sid (JsArg.obj params) JsArg.undef).map Prod.fst =
      Except.ok JsReturn.promiseVal ∧
    (Bangumi.ep c sid JsArg.undef).map Prod.fst = Except.ok JsReturn.promiseVal ∧
    (Bangumi.collectionByUser c username (JsArg.obj params) JsArg.undef).map Prod.fst =
      Except.ok JsReturn.promiseVal ∧
    (Bangumi.search c keywords (JsArg.obj params) JsArg.undef).map Prod.fst =
      Except.ok JsReturn.promiseVal ∧
    (Bangumi.collectionBySubject c sid (JsArg.obj params) JsArg.undef).map Prod.fst =
      Except.ok JsReturn.promiseVal ∧
    (Bangumi.progress c username (JsArg.obj params) JsArg.undef).map Prod.fst =
      Except.ok JsReturn.promiseVal ∧
    (Bangumi.auth c (JsArg.obj params) JsArg.undef).map Prod.fst =
      Except.ok JsReturn.promiseVal ∧
    (Bangumi.createCollection c sid (JsArg.obj params) JsArg.undef).map Prod.fst =
      Except.ok JsReturn.promiseVal ∧
    (Bangumi.updateEp c epid status (JsArg.obj params) JsArg.undef).map Prod.fst =
      Except.ok JsReturn.promiseVal ∧
    (Bangumi.updateEps c sid (JsArg.obj params) JsArg.undef).map Prod.fst =
      Except.ok JsReturn.promiseVal := by
  refine ⟨?_, by decide, ?_, ?_, ?_, ?_, ?_, ?_, ?_, ?_, ?_, ?_, ?_⟩
  · unfold Bangumi.calendar Bangumi.get
    rw [_get_valid c "/calendar" cb rfl]
    rfl
  · unfold Bangumi.user
    rw [get_return c _ _ _ (firstCharIs_append "/user/" username '/' rfl)]
    rfl
  · unfold Bangumi.subject
    rw [get_return c _ _ _ (firstCharIs_append "/subject/" (toString sid) '/' rfl)]
    rfl
  · unfold Bangumi.ep
    rw [get_return c _ _ _ (firstCharIs_append ("/subject/" ++ toString sid) "/ep" '/'
      (firstCharIs_append "/subject/" (toString sid) '/' rfl))]
    rfl
  · unfold Bangumi.collectionByUser
    rw [get_return c _ _ _ (firstCharIs_append ("/user/" ++ username) "/collection" '/'
      (firstCharIs_append "/user/" username '/' rfl))]
    rfl
  · unfold Bangumi.search
    rw [get_return c _ _ _ (firstCharIs_append "/search/subject/" keywords '/' rfl)]
    rfl
  · unfold Bangumi.collectionBySubject
    rw [get_return c _ _ _ (firstCharIs_append "/collection/" (toString sid) '/' rfl)]
    rfl
  · unfold Bangumi.progress
    rw [get_return c _ _ _ (firstCharIs_append ("/user/" ++ username) "/progress" '/'
      (firstCharIs_append "/user/" username '/' rfl))]
    rfl
  · unfold Bangumi.auth
    rw [post_return c "/auth" _ _ rfl]
    rfl
  · unfold Bangumi.createCollection
    rw [post_return c _ _ _ (firstCharIs_append ("/collection/" ++ toString sid) "/create" '/'
      (firstCharIs_append "/collection/" (toString sid) '/' rfl))]
    rfl
  · unfold Bangumi.updateEp
    rw [post_return c _ _ _
      (firstCharIs_append ("/ep/" ++ toString epid ++ "/status/") status '/'
        (firstCharIs_append ("/ep/" ++ toString epid) "/status/" '/'
          (firstCharIs_append "/ep/" (toString epid) '/' rfl)))]
    rfl
  · unfold Bangumi.updateEps
    rw [post_return c _ _ _
      (firstCharIs_append ("/subject/" ++ toString sid) "/update/watched_eps" '/'
        (firstCharIs_append "/subject/" (toString sid) '/' rfl))]
    rfl

end NodeBangumi
